import Mathlib

/- Verification development for the slack2discord importer
   (src/slack2discord.py): a shallow embedding in Lean of the
   message-translation and import-ordering pipeline, together with
   theorems about reference resolution, catalog loading, message
   parsing, block splitting, sending, and thread sequencing. -/

set_option maxRecDepth 2000

/-! ## Python string primitives

Message text is modelled as Lean `String` (a sequence of characters,
matching Python `str` indexing/len semantics).  The Python string
operations used by the source (`in`, `str.replace`, `str.endswith`,
`str.split`, `str.rfind`) are re-implemented structurally over
`String.data` so that they are executable and kernel-reducible. -/

/-- Python `pat in s` (substring containment), on character lists. -/
def containsL (pat : List Char) : List Char → Bool
  | [] => pat.isEmpty
  | c :: rest => pat.isPrefixOf (c :: rest) || containsL pat rest

/-- Python `pat in s` for strings. -/
def pyContains (s pat : String) : Bool := containsL pat.data s.data

/-- Worker for Python `s.replace(pat, rep)`: leftmost, non-overlapping
replacement of every occurrence.  Fuel-indexed so that it is structural;
fuel `s.length` always suffices since each step consumes at least one
character (for nonempty `pat`; the source never replaces an empty
pattern). -/
def pyReplaceFuel (pat rep : List Char) : Nat → List Char → List Char
  | 0, s => s
  | _ + 1, [] => []
  | fuel + 1, c :: rest =>
    if pat ≠ [] ∧ pat.isPrefixOf (c :: rest) then
      rep ++ pyReplaceFuel pat rep fuel ((c :: rest).drop pat.length)
    else c :: pyReplaceFuel pat rep fuel rest

/-- Python `s.replace(pat, rep)`. -/
def pyReplace (s pat rep : String) : String :=
  ⟨pyReplaceFuel pat.data rep.data s.data.length s.data⟩

/-- Python `s.endswith(suffix)`. -/
def pyEndsWith (s suffix : String) : Bool := suffix.data.isSuffixOf s.data

/-- Python falsiness of a string: empty is falsy.  Defined over the
character list so that it reduces both symbolically and by evaluation. -/
def pyEmpty (s : String) : Bool := s.data.isEmpty

/-- Python truthiness of an optional string: `None` and `""` are falsy. -/
def pyFalsy : Option String → Bool
  | none => true
  | some s => pyEmpty s

/-! ## Association lists (Python dicts)

Python dicts keyed by strings (or by optional strings) are modelled as
association lists in insertion order; `updateA` is dict assignment
(overwrite if the key exists, else append) and `lookupA` is lookup. -/

def lookupA {α β : Type} [DecidableEq α] (k : α) : List (α × β) → Option β
  | [] => none
  | (k2, v) :: rest => if k = k2 then some v else lookupA k rest

def updateA {α β : Type} [DecidableEq α] (k : α) (v : β) :
    List (α × β) → List (α × β)
  | [] => [(k, v)]
  | (k2, v2) :: rest =>
    if k = k2 then (k, v) :: rest else (k2, v2) :: updateA k v rest

theorem lookupA_updateA {α β : Type} [DecidableEq α] (k k2 : α) (v : β)
    (l : List (α × β)) :
    lookupA k (updateA k2 v l) = if k = k2 then some v else lookupA k l := by
  induction l with
  | nil => simp [lookupA, updateA]
  | cons p rest ih =>
    obtain ⟨k3, v3⟩ := p
    by_cases h32 : k2 = k3
    · subst h32
      by_cases hk : k = k2
      · subst hk
        simp [updateA, lookupA]
      · simp [updateA, lookupA, hk]
    · simp only [updateA, if_neg h32, lookupA]
      by_cases hk3 : k = k3
      · subst hk3
        have hkk2 : ¬k = k2 := fun h => h32 h.symm
        simp [lookupA, hkk2]
      · simp [lookupA, if_neg hk3, ih]

/-! ## Destination (Discord) directory

`ctx.guild` is modelled as a `Guild` carrying the member list and the
channel list; `get_member_named` is `Guild.get_member_named` and
`get_channel_named` is `discord.utils.get(ctx.guild.channels, ...)`
(first match by name). -/

structure Member where
  name : String
  mention : String
deriving DecidableEq

structure GChannel where
  name : String
  id : Nat
deriving DecidableEq

structure Guild where
  members : List Member
  channels : List GChannel
deriving DecidableEq

def get_member_named (g : Guild) (n : String) : Option Member :=
  g.members.find? (fun m => decide (m.name = n))

def get_channel_named (g : Guild) (n : String) : Option GChannel :=
  g.channels.find? (fun c => decide (c.name = n))

/-! ## Reference Resolver: fill_references (src lines 580-628)

For each user-catalog entry `(uid, slack_name)` whose token `<@uid>`
occurs in the message (and whose name is truthy), the source picks the
replacement string and replaces all occurrences; then likewise for
channel-catalog entries with tokens `<#cid|name>`.  The Python guard
`slack2discord_uids and uid in slack2discord_uids` is modelled by
`slack2discord_uids.bind (lookupA uid)` being `some` (a `None` table and
an empty table both fail the guard, and lookup in an empty list is
`none`). -/

def fill_references (g : Guild) (message : String)
    (users : Option (List (String × String)))
    (slack2discord_uids : Option (List (String × String)))
    (channels : Option (List (String × String))) : String :=
  let message1 :=
    match users with
    | none => message
    | some us =>
      us.foldl (fun msg p =>
        let uid := p.1
        let slack_name := p.2
        let old_str := "<@" ++ uid ++ ">"
        if pyContains msg old_str && !pyEmpty slack_name then
          let new_str :=
            match slack2discord_uids.bind (fun m => lookupA uid m) with
            | some discord_name =>
              match get_member_named g discord_name with
              | some u => u.mention
              | none => "@" ++ slack_name
            | none =>
              match get_member_named g slack_name with
              | some u => u.mention
              | none => "@" ++ slack_name
          pyReplace msg old_str new_str
        else msg) message
  match channels with
  | none => message1
  | some cs =>
    cs.foldl (fun msg p =>
      let cid := p.1
      let name := p.2
      let old_str := "<#" ++ cid ++ "|" ++ name ++ ">"
      if pyContains msg old_str then
        let new_str :=
          match get_channel_named g name with
          | some ch => "<#" ++ toString ch.id ++ ">"
          | none => "#" ++ name
        pyReplace msg old_str new_str
      else msg) message1

/-! ## Identity Catalog loaders (src lines 455-574)

Each loader reads a designated JSON file.  The outcome of locating,
opening and JSON-decoding the file is abstracted as a `FileRead`:
`missing` (no path / not a file), `ioError` (OSError while reading),
`badJson` (json.JSONDecodeError), or `ok` with the decoded value.

Faithful control-flow detail: on `badJson` the user/channel loaders
print the error and fall through to `return users` / `return channels`,
returning the empty dict built so far (not `None`); the
slack2discord-mapping loader prints the error and then evaluates
`if dirty:` where the local `dirty` was never assigned (the assignment
sits after `json.load` inside the `try`), raising an uncaught
`NameError`.  These paths are modelled exactly. -/

inductive FileRead (α : Type) where
  | missing
  | ioError
  | badJson
  | ok (a : α)

/-- One record of users.json (the fields the source reads). -/
structure UserJson where
  id : String
  display_name : String
  real_name : String
deriving DecidableEq

/-- Embedding of get_display_names (src lines 455-482). -/
def get_display_names (r : FileRead (List UserJson)) :
    Option (List (String × String)) :=
  match r with
  | .missing => none
  | .ioError => none
  | .badJson => some []
  | .ok us =>
    some (us.foldl (fun acc u =>
      updateA u.id
        (if !pyEmpty u.display_name then u.display_name else u.real_name)
        acc) [])

/-- One record of channels.json. -/
structure ChannelJson where
  id : String
  name : String
deriving DecidableEq

/-- Embedding of get_channel_names (src lines 548-574). -/
def get_channel_names (r : FileRead (List ChannelJson)) :
    Option (List (String × String)) :=
  match r with
  | .missing => none
  | .ioError => none
  | .badJson => some []
  | .ok cs => some (cs.foldl (fun acc c => updateA c.id c.name acc) [])

/-- One entry of slack2discord_users.json:
field presence of slack.id is an `Option`; discord.id is kept as an
`Option String` whose `none` stands for a Python-falsy value (null or
empty), as tested by `if user["discord"]["id"]:`. -/
structure MapEntry where
  slack_id : Option String := none
  slack_name : String := ""
  discord_name : String := ""
  discord_id : Option String := none
deriving DecidableEq

/-- Slack ids whose catalog display name equals `slack_name`
(the list comprehension at src lines 512-514). -/
def matchingIds (users : List (String × String)) (slack_name : String) :
    List String :=
  (users.filter (fun p => decide (p.2 = slack_name))).map (fun p => p.1)

/-- Resolution of one mapping entry (src lines 508-526): a present
slack.id is used as is; otherwise the name is resolved against the user
catalog — zero or several matches skip the entry (`continue`), exactly
one match backfills the id and marks the table dirty.  Returns
`none` when the entry is skipped, else the id, the (possibly backfilled)
entry and whether it was backfilled. -/
def resolveEntry (users : List (String × String)) (e : MapEntry) :
    Option (String × MapEntry × Bool) :=
  match e.slack_id with
  | some sid => some (sid, e, false)
  | none =>
    match matchingIds users e.slack_name with
    | [] => none
    | [sid] => some (sid, { e with slack_id := some sid }, true)
    | _ :: _ :: _ => none

/-- One iteration of the loop over entries (src lines 507-531):
accumulates the uid table, the (possibly updated) entry list and the
dirty flag. -/
def processStep (users : List (String × String))
    (acc : List (String × String) × List MapEntry × Bool) (e : MapEntry) :
    List (String × String) × List MapEntry × Bool :=
  match resolveEntry users e with
  | none => (acc.1, acc.2.1 ++ [e], acc.2.2)
  | some (sid, e2, b) =>
    let discord_name :=
      match e2.discord_id with
      | some i => e2.discord_name ++ "#" ++ i
      | none => e2.discord_name
    (updateA sid discord_name acc.1, acc.2.1 ++ [e2], acc.2.2 || b)

/-- The loop over entries: builds the uid table, carries the updated
entry list and the dirty flag. -/
def processEntries (users : List (String × String))
    (entries : List MapEntry) :
    List (String × String) × List MapEntry × Bool :=
  entries.foldl (processStep users) ([], [], false)

/-- Result of the mapping loader: `ok` carries the uid table and
`written = some entries` when the table was dirty and rewritten to the
file (src lines 538-543), `noFile` is a `return None` path, `crash` is
an uncaught Python exception. -/
inductive MapResult where
  | ok (uids : List (String × String)) (written : Option (List MapEntry))
  | noFile
  | crash (e : String)
deriving DecidableEq

def MapResult.writtenFile : MapResult → Option (List MapEntry)
  | .ok _ w => w
  | .noFile => none
  | .crash _ => none

/-- Embedding of get_slack2discord_user_mapping (src lines 485-545). -/
def get_slack2discord_user_mapping (r : FileRead (List MapEntry))
    (users : List (String × String)) : MapResult :=
  match r with
  | .missing => .noFile
  | .ioError => .noFile
  | .badJson => .crash "NameError: dirty"
  | .ok entries =>
    let pe := processEntries users entries
    .ok pe.1 (if pe.2.2 then some pe.2.1 else none)

/-! ## Message Translator (src lines 664-947) -/

/-- External text services used by the translator, taken as parameters
of the model: `unescape` is html.unescape, `hyperlink` is the pair of
re.sub hyperlink rewrites at src lines 911-912, `fmtTs` is
datetime.fromtimestamp(float(ts)).strftime(...) applied to a raw
timestamp string.  No claim under verification depends on their
internals. -/
structure TextEnv where
  unescape : String → String
  hyperlink : String → String
  fmtTs : String → String

/-- A raw Slack export message record (the fields the source reads). -/
structure SFile where
  url_private : Option String := none
  filetype : String := ""
  name : String := ""
  title : String := ""
  mimetype : String := ""
  timestamp : Nat := 0
deriving DecidableEq

structure SMsg where
  subtype : Option String := none
  client_msg_id : Option String := none
  user : Option String := none
  ts : Option String := none
  text : Option String := none
  files : Option (List SFile) := none
  thread_ts : Option String := none
deriving DecidableEq

/-- A discord.File (the model keeps the chosen filename; the fetched
bytes play no role in any claim). -/
structure DFile where
  filename : String
deriving DecidableEq

/-- A discord.Embed with the fields the source sets. -/
structure DEmbed where
  etype : String
  title : Option String := none
  description : Option String := none
  timestamp : Option Nat := none
  image_url : Option String := none
deriving DecidableEq

/-- Embedding of parse_timestamp (src lines 664-669). -/
def parse_timestamp (env : TextEnv) (message : SMsg) : String :=
  match message.ts with
  | some ts => env.fmtTs ts
  | none => "<no timestamp>"

/-- Python-exception outcomes that the model makes explicit. -/
inductive PyErr where
  | typeError
  | divergence
deriving DecidableEq

/-- The tail of parse_user (src lines 685-691): wrap the resolved
username as a native mention when a destination member carries exactly
that name, else as plain text. -/
def wrapMention (g : Guild) (username : String) : String :=
  match get_member_named g username with
  | some u => u.mention
  | none => "@" ++ username

/-- Embedding of parse_user (src lines 672-691).  The `users` catalog
parameter is accepted and never consulted, as in the source.  When the
slack2discord mapping is `None`, the subscript
`slack2discord_uids[uid]` raises TypeError, which the
`except KeyError` does not catch: modelled as `PyErr.typeError`. -/
def parse_user (g : Guild) (message : SMsg)
    (users : Option (List (String × String)))
    (slack2discord_uids : Option (List (String × String))) :
    Except PyErr String :=
  match message.user with
  | some uid =>
    match slack2discord_uids with
    | none => .error .typeError
    | some m =>
      let username :=
        match lookupA uid m with
        | some d => d
        | none => "<unknown user " ++ uid ++ ">"
      .ok (wrapMention g username)
  | none => .ok (wrapMention g "<unknown user>")

/-- Embedding of parse_text (src lines 694-701). -/
def parse_text (env : TextEnv) (g : Guild) (message : SMsg)
    (username : String) (users uids channels : Option (List (String × String))) :
    Option String :=
  match message.text with
  | none => none
  | some t =>
    if pyEmpty t then none
    else
      let timestamp := parse_timestamp env message
      let t2 := fill_references g t users uids channels
      some ("*" ++ timestamp ++ "* **" ++ username ++ "**: " ++ t2)

/-- Embedding of parse_files (src lines 705-877).  Fetching the bytes
(`requests.get`) is not modelled; the filename and classification
logic is.  A file without url_private is skipped with a logged error. -/
def parse_files (files : List SFile) : List DFile × List DEmbed :=
  files.foldl (fun acc file =>
    match file.url_private with
    | some _ =>
      let extension := file.filetype
      let filename :=
        if pyEndsWith file.name extension then file.name
        else file.name ++ extension
      let discord_file : DFile := ⟨filename⟩
      if (file.mimetype.data.takeWhile (fun c => c ≠ '/')) = "image".data then
        let discord_embed : DEmbed :=
          { etype := "image"
            title := some file.title
            timestamp := some file.timestamp
            image_url := some ("attachment://" ++ filename) }
        (acc.1 ++ [discord_file], acc.2 ++ [discord_embed])
      else
        (acc.1 ++ [discord_file], acc.2)
    | none => acc) ([], [])

/-! ## Size constants (src lines 294-300) -/

def MAX_CHARACTERS : Nat := 2000
def MAX_EMBED_CHARACTERS : Nat := 4096
def MAX_TOTAL_EMBEDS_CHARACTERS : Nat := 6000

/-! ## The demotion/split loop of parse_message (src lines 916-933)

Python `excerpt.rfind(chr(10))` returns the highest index of a newline,
or -1.  The loop slices `msg[:newline]` and `msg[newline:]`; with
newline = -1 these are `msg[:-1]` (all but the last character) and
`msg[-1:]` (the last character), which the model writes as
`take (length - 1)` and `drop (length - 1)`.  When the only newline in
the first MAX_EMBED_CHARACTERS characters sits at index 0, the Python
loop makes no progress and never terminates; the model is fuel-indexed
and returns `none` exactly on such non-terminating inputs (fuel
`length + 1` suffices for every terminating run, since every productive
step consumes at least one character). -/

/-- Python `l.rfind(chr(10))` as an optional index. -/
def rfindNewline (l : List Char) : Option Nat :=
  (l.foldl (fun (acc : Option Nat × Nat) c =>
    (if c = '\n' then some acc.2 else acc.1, acc.2 + 1)) (none, 0)).1

def splitBlocksF : Nat → List Char → Option (List (List Char))
  | 0, _ => none
  | fuel + 1, msg =>
    if msg.isEmpty then some []
    else if msg.length > MAX_EMBED_CHARACTERS then
      match rfindNewline (msg.take MAX_EMBED_CHARACTERS) with
      | some n => (fun bs => msg.take n :: bs) <$> splitBlocksF fuel (msg.drop n)
      | none =>
        (fun bs => msg.take (msg.length - 1) :: bs) <$>
          splitBlocksF fuel (msg.drop (msg.length - 1))
    else some [msg]

/-- The split loop on a character list: the sequence of embed
descriptions produced from `msg`, or `none` when the source loop does
not terminate on this input. -/
def splitBlocks (msg : List Char) : Option (List (List Char)) :=
  splitBlocksF (msg.length + 1) msg

/-- The split loop on a string. -/
def splitBlocksStr (s : String) : Option (List String) :=
  (splitBlocks s.data).map (fun bs => bs.map (fun b => ⟨b⟩))

/-! ## parse_message (src lines 880-947) -/

/-- The tuple parse_message returns (msg_id, msg, files, embeds,
thread).  `files`/`embeds` are plain lists; the Python variables start
as None and the caller normalizes with `embeds if embeds else None`, so
only truthiness (non-emptiness) is ever observed. -/
structure PMsg where
  msg_id : Option String
  msg : Option String
  files : List DFile
  embeds : List DEmbed
  thread_ts : Option String
deriving DecidableEq

/-- Embedding of parse_message (src lines 880-947). -/
def parse_message (env : TextEnv) (g : Guild) (message : SMsg)
    (users uids channels : Option (List (String × String))) :
    Except PyErr (Option PMsg) :=
  if message.subtype = some "channel_join" then .ok none
  else if message.subtype = some "bot_message" then .ok none
  else
    let msg_id := message.client_msg_id
    match parse_user g message users uids with
    | .error e => .error e
    | .ok username =>
      let msg0 : Option String :=
        if message.text.isSome then
          parse_text env g message username users uids channels
        else none
      let fe : List DFile × List DEmbed :=
        match message.files with
        | some fs => parse_files fs
        | none => ([], [])
      let files := fe.1
      let embeds := fe.2
      let processed : Except PyErr (Option String × List DEmbed) :=
        match msg0 with
        | none => .ok (none, embeds)
        | some s =>
          if pyEmpty s then .ok (some s, embeds)
          else
            let s1 := env.unescape s
            let s2 := pyReplace s1 "<!everyone>" "@everyone"
            let msg_hyperlinked := env.hyperlink s2
            if s2 ≠ msg_hyperlinked ∨ msg_hyperlinked.length > MAX_CHARACTERS then
              match splitBlocksStr msg_hyperlinked with
              | some blocks =>
                .ok (none, embeds ++ blocks.map (fun b =>
                  { etype := "rich", description := some b }))
              | none => .error .divergence
            else .ok (some s2, embeds)
      match processed with
      | .error e => .error e
      | .ok (msg1, embeds1) =>
        let msg2 :=
          if !files.isEmpty && pyFalsy msg1 && embeds1.isEmpty then
            some ("*" ++ parse_timestamp env message ++ "* **" ++ username
              ++ "**: *Attachments:*")
          else msg1
        if pyFalsy msg2 && files.isEmpty && embeds1.isEmpty then .ok none
        else .ok (some ⟨msg_id, msg2, files, embeds1, message.thread_ts⟩)

/-! ## Delivery Throttler: send_message (src lines 950-1012)

Delivery contexts: the text channel the import targets, or a native
thread created from an anchor message (identified by the anchor's
handle).  Message handles are numbered in send order by `nextHandle`.
The `reference=ref` reply parameter is passed only on the
no-embeds-no-files call (src line 979); the embed/file calls at src
lines 990 and 992 do not pass it. -/

inductive DestCtx where
  | channel
  | thread (anchor : Nat)
deriving DecidableEq

structure Delivery where
  context : DestCtx
  msg : Option String
  ref : Option Nat
  embeds : List DEmbed
  files : List DFile
  handle : Nat
deriving DecidableEq

/-- Embedding of send_message: returns the handle of the first message
produced (None when everything is empty) and the list of performed
sends. -/
def send_message (nextHandle : Nat) (context : DestCtx) (msg : Option String)
    (ref : Option Nat) (embeds : List DEmbed) (files : List DFile) :
    Option Nat × List Delivery :=
  if pyFalsy msg && embeds.isEmpty && files.isEmpty then (none, [])
  else if embeds.isEmpty && files.isEmpty then
    (some nextHandle, [⟨context, msg, ref, [], [], nextHandle⟩])
  else
    (some nextHandle, [⟨context, msg, none, embeds, files, nextHandle⟩])

/-! ## Thread/Sequencer: import_files (src lines 1015-1082)

State of one import run.  `threads` is the per-channel dict mapping a
slack thread_ts to its anchor: in native mode (discord.py >= 2) the
value is the handle of the message whose thread was created; in
emulation mode the value is the result of send_message (an optional
handle).  `receipts` is the `messages` dict mapping slack msg-id to the
send result.  `crashed` records an uncaught Python exception (emulation
mode prefixes `msg = prefix + msg`, a TypeError when msg is None; and
`message.create_thread` on a None send result).  Once crashed, no
further step has an effect. -/

structure ImpState where
  threads : List (String × Option Nat)
  receipts : List (Option String × Option Nat)
  nextHandle : Nat
  deliveries : List Delivery
  crashed : Bool
deriving DecidableEq

def initImpState : ImpState := ⟨[], [], 0, [], false⟩

/-- Python `if msg or embeds or files:` (src line 1032). -/
def hasContent (p : PMsg) : Bool :=
  !(pyFalsy p.msg && p.embeds.isEmpty && p.files.isEmpty)

/-- The context / thread_owner / prefixed-message computation of the
loop body (src lines 1033-1051).  `none` models an uncaught TypeError:
in emulation mode `msg = prefix + msg` raises when msg is None; in
native mode a recorded `None` anchor would be sent to (unreachable,
since native anchors always come from a created thread). -/
def prepMsg (native : Bool) (st : ImpState) (p : PMsg) :
    Option (DestCtx × Option Nat × Option String) :=
  match p.thread_ts with
  | none => some (.channel, none, p.msg)
  | some ts =>
    match lookupA ts st.threads with
    | some anchor =>
      if native then
        match anchor with
        | some a => some (.thread a, none, p.msg)
        | none => none
      else
        match p.msg with
        | some s => some (.channel, anchor, some ("[Thread] " ++ s))
        | none => none
    | none =>
      if native then some (.channel, none, p.msg)
      else
        match p.msg with
        | some s => some (.channel, none, some ("[Thread OP] " ++ s))
        | none => none

/-- Recording a new thread anchor (src lines 1058-1066): in native mode
`message.create_thread` is called on the send result (an uncaught
AttributeError — modelled as a crash — if that were None); in emulation
mode the send result itself is stored. -/
def recordThread (native : Bool) (ts : String) (result : Option Nat)
    (st1 : ImpState) : ImpState :=
  if native then
    match result with
    | some h => { st1 with threads := updateA ts (some h) st1.threads }
    | none => { st1 with crashed := true }
  else { st1 with threads := updateA ts result st1.threads }

/-- One iteration of the message loop of import_files
(src lines 1030-1070) on an already-parsed message. -/
def import_step (native : Bool) (st : ImpState) (p : PMsg) : ImpState :=
  if st.crashed then st
  else if !hasContent p then st
  else
    match prepMsg native st p with
    | none => { st with crashed := true }
    | some (context, thread_owner, msg) =>
      let sd := send_message st.nextHandle context msg thread_owner p.embeds p.files
      let st1 : ImpState :=
        { st with
          nextHandle := st.nextHandle + sd.2.length
          deliveries := st.deliveries ++ sd.2
          receipts := updateA p.msg_id sd.1 st.receipts }
      match p.thread_ts with
      | none => st1
      | some ts =>
        match lookupA ts st.threads with
        | some _ => st1
        | none => recordThread native ts sd.1 st1

/-- The message loop of import_files over a parsed message stream. -/
def import_run (native : Bool) (st : ImpState) (ps : List PMsg) : ImpState :=
  ps.foldl (import_step native) st

/-- One call of import_files from import_slack_directory
(src line 1105): `threads = {}` is freshly created inside import_files,
while the `messages` receipts dict is the function's shared mutable
default argument, so it enters as whatever the previous call left. -/
def import_channel (native : Bool) (st : ImpState) (ch : List PMsg) : ImpState :=
  import_run native { st with threads := [] } ch

/-- The per-channel loop of import_slack_directory (src lines 1101-1106). -/
def import_channels (native : Bool) (st : ImpState)
    (chs : List (List PMsg)) : ImpState :=
  chs.foldl (import_channel native) st

/-! ## Claims about the split loop (C3, C4) -/

theorem rfind_aux_no_nl (l : List Char) (h : '\n' ∉ l) (a : Option Nat × Nat) :
    l.foldl (fun (acc : Option Nat × Nat) c =>
      (if c = '\n' then some acc.2 else acc.1, acc.2 + 1)) a = (a.1, a.2 + l.length) := by
  induction l generalizing a with
  | nil => simp
  | cons c rest ih =>
    simp only [List.foldl_cons]
    have hc : c ≠ '\n' := fun hc => h (hc ▸ List.mem_cons_self c rest)
    rw [if_neg hc, ih (fun hm => h (List.mem_cons_of_mem _ hm))]
    have hadd : a.2 + 1 + rest.length = a.2 + (rest.length + 1) := by omega
    rw [List.length_cons, hadd]

theorem rfind_no_newline (l : List Char) (h : '\n' ∉ l) :
    rfindNewline l = none := by
  unfold rfindNewline
  rw [rfind_aux_no_nl l h]

theorem nl_notin_replicate (n : Nat) : '\n' ∉ List.replicate n 'a' := by
  intro h
  have := List.eq_of_mem_replicate h
  simp at this

/-- Evaluation of the split loop on 4098 characters without any
newline: `rfind` yields -1 and the loop emits `msg[:-1]` — a block of
4097 characters — followed by the final one-character block. -/
theorem splitBlocks_replicate_4098 :
    splitBlocks (List.replicate 4098 'a') =
      some [List.replicate 4097 'a', ['a']] := by
  unfold splitBlocks
  rw [List.length_replicate]
  show splitBlocksF (4098 + 1) (List.replicate 4098 'a') = _
  unfold splitBlocksF
  rw [List.take_replicate, rfind_no_newline _ (by
    rw [show min MAX_EMBED_CHARACTERS 4098 = MAX_EMBED_CHARACTERS from rfl]
    exact nl_notin_replicate MAX_EMBED_CHARACTERS)]
  simp only [List.length_replicate, List.take_replicate, List.drop_replicate]
  rw [if_neg (by simp [List.isEmpty_iff]), if_pos (by norm_num [MAX_EMBED_CHARACTERS])]
  norm_num
  have h1 : splitBlocksF 4098 ['a'] = some [['a']] := by decide
  rw [h1]

/-- Round trip of the fuel-indexed split loop: whenever the loop
terminates, the emitted blocks concatenate back to the input. -/
theorem splitBlocksF_roundtrip (fuel : Nat) (msg : List Char)
    (bs : List (List Char)) (h : splitBlocksF fuel msg = some bs) :
    bs.flatten = msg := by
  induction fuel generalizing msg bs with
  | zero => simp [splitBlocksF] at h
  | succ fuel ih =>
    unfold splitBlocksF at h
    by_cases he : msg.isEmpty
    · rw [if_pos he] at h
      cases h
      simp_all [List.isEmpty_iff]
    · rw [if_neg he] at h
      by_cases hl : msg.length > MAX_EMBED_CHARACTERS
      · rw [if_pos hl] at h
        cases hr : rfindNewline (msg.take MAX_EMBED_CHARACTERS) with
        | some n =>
          rw [hr] at h
          simp only at h
          cases hs : splitBlocksF fuel (msg.drop n) with
          | none => rw [hs] at h; simp at h
          | some bs2 =>
            rw [hs] at h
            simp only [Option.map_eq_map, Option.map_some, Option.some_inj] at h
            subst h
            simp only [List.flatten_cons]
            rw [ih _ _ hs, List.take_append_drop]
        | none =>
          rw [hr] at h
          simp only at h
          cases hs : splitBlocksF fuel (msg.drop (msg.length - 1)) with
          | none => rw [hs] at h; simp at h
          | some bs2 =>
            rw [hs] at h
            simp only [Option.map_eq_map, Option.map_some, Option.some_inj] at h
            subst h
            simp only [List.flatten_cons]
            rw [ih _ _ hs, List.take_append_drop]
      · rw [if_neg hl] at h
        cases h
        simp

/-- C3: for every text longer than the block character ceiling, when
splitting it into rich-content blocks terminates, concatenating the
block contents in order reconstructs the original text exactly (the
loop slices excerpt = msg[:newline] and tail = msg[newline:], so no
character is dropped and no separator is inserted). -/
theorem split_roundtrip (msg : List Char) (bs : List (List Char))
    (hlong : msg.length > MAX_EMBED_CHARACTERS)
    (h : splitBlocks msg = some bs) : bs.flatten = msg :=
  splitBlocksF_roundtrip _ _ _ h

/-- Witness for split_roundtrip at a concrete 4098-character input. -/
theorem split_roundtrip_witness :
    (List.replicate 4098 'a').length > MAX_EMBED_CHARACTERS
    ∧ List.flatten [List.replicate 4097 'a', ['a']] = List.replicate 4098 'a' :=
  ⟨by rw [List.length_replicate]; decide,
   split_roundtrip _ _ (by rw [List.length_replicate]; decide)
     splitBlocks_replicate_4098⟩

/-- C4: on a 4098-character message containing no newline, the split
loop produces a first block of 4097 characters, exceeding the
MAX_EMBED_CHARACTERS = 4096 per-block ceiling: `excerpt.rfind` returns
-1 when the 4096-character window holds no newline, and the slice
`msg[:-1]` keeps everything but the last character. -/
theorem split_block_exceeds_ceiling_no_newline :
    splitBlocks (List.replicate 4098 'a') =
      some [List.replicate 4097 'a', ['a']]
    ∧ (List.replicate 4097 'a').length > MAX_EMBED_CHARACTERS :=
  ⟨splitBlocks_replicate_4098, by rw [List.length_replicate]; decide⟩

/-! ## Claims about the loaders (C7, C8) -/

/-- C7: on a malformed-JSON catalog file, the user loader and the
channel loader log and return the empty dict built so far (not None),
and the identity-mapping loader logs and then raises NameError at
`if dirty:` (the local was assigned only after the failing json.load),
crashing the run. -/
theorem loaders_malformed_json_behavior :
    get_slack2discord_user_mapping .badJson [] = .crash "NameError: dirty"
    ∧ get_display_names .badJson = some []
    ∧ get_channel_names .badJson = some [] :=
  ⟨rfl, rfl, rfl⟩

/-- An entry the loader backfills: no slack.id supplied and exactly one
catalog user bears the supplied name. -/
def entryBackfilled (users : List (String × String)) (e : MapEntry) : Bool :=
  e.slack_id.isNone && (matchingIds users e.slack_name).length == 1

theorem resolveEntry_dirty (users : List (String × String)) (e : MapEntry) :
    (resolveEntry users e).elim false (fun t => t.2.2) =
      entryBackfilled users e := by
  unfold resolveEntry entryBackfilled
  cases hid : e.slack_id with
  | some sid => simp
  | none =>
    cases hm : matchingIds users e.slack_name with
    | nil => simp
    | cons sid rest =>
      cases rest with
      | nil => simp
      | cons b rest2 => simp

theorem processEntries_foldl_dirty (users : List (String × String))
    (entries : List MapEntry)
    (acc : List (String × String) × List MapEntry × Bool) :
    (entries.foldl (processStep users) acc).2.2 =
      (acc.2.2 || entries.any (entryBackfilled users)) := by
  induction entries generalizing acc with
  | nil => simp
  | cons e rest ih =>
    rw [List.foldl_cons, ih]
    have hstep : (processStep users acc e).2.2 =
        (acc.2.2 || entryBackfilled users e) := by
      unfold processStep
      rw [← resolveEntry_dirty users e]
      cases resolveEntry users e with
      | none => simp
      | some t => simp
    rw [hstep, List.any_cons, Bool.or_assoc]

theorem processEntries_dirty (users : List (String × String))
    (entries : List MapEntry) :
    (processEntries users entries).2.2 =
      entries.any (entryBackfilled users) := by
  unfold processEntries
  rw [processEntries_foldl_dirty]
  simp

/-- C8: the load-and-resolve pass rewrites the mapping file if and only
if at least one entry was backfilled with a resolved id; with zero
dirty entries the file is left untouched. -/
theorem mapping_rewrite_iff_backfill (users : List (String × String))
    (entries : List MapEntry) :
    (get_slack2discord_user_mapping (.ok entries) users).writtenFile = none
      ↔ ∀ e ∈ entries, entryBackfilled users e = false := by
  unfold get_slack2discord_user_mapping MapResult.writtenFile
  simp only [processEntries_dirty]
  by_cases h : entries.any (entryBackfilled users)
  · simp only [h, if_true]
    simp only [List.any_eq_true] at h
    obtain ⟨e, he, hb⟩ := h
    constructor
    · intro hfalse
      exact absurd hfalse (by simp)
    · intro hall
      exact absurd hb (by simp [hall e he])
  · simp only [Bool.not_eq_true] at h
    simp only [h, if_false]
    simp only [List.any_eq_false] at h
    constructor
    · intro _ e he
      simpa using h e he
    · intro _
      rfl

/-- Witness for mapping_rewrite_iff_backfill: an entry that already
carries its slack id is not backfilled, and the file is not rewritten. -/
theorem mapping_rewrite_iff_backfill_witness :
    (get_slack2discord_user_mapping
      (.ok [{ slack_id := some "U1", slack_name := "alice",
              discord_name := "bob", discord_id := none }])
      []).writtenFile = none :=
  (mapping_rewrite_iff_backfill [] _).mpr (by decide)

/-! ## Claim about sending nothing (C10) -/

/-- C10: when the text is falsy (None or empty) and there are no
attachments and no embeds, send_message performs no send against the
destination and returns None. -/
theorem send_message_empty_returns_none (nextHandle : Nat)
    (context : DestCtx) (msg : Option String) (ref : Option Nat)
    (h : pyFalsy msg = true) :
    send_message nextHandle context msg ref [] [] = (none, []) := by
  simp [send_message, h]

/-- Witness for send_message_empty_returns_none. -/
theorem send_message_empty_returns_none_witness :
    send_message 0 DestCtx.channel none none [] [] = (none, []) :=
  send_message_empty_returns_none 0 DestCtx.channel none none rfl

instance exceptDecEq {ε α : Type} [DecidableEq ε] [DecidableEq α] :
    DecidableEq (Except ε α) := fun a b =>
  match a, b with
  | .error e1, .error e2 =>
    if h : e1 = e2 then .isTrue (by rw [h])
    else .isFalse (by intro hc; cases hc; exact h rfl)
  | .error _, .ok _ => .isFalse (by intro hc; cases hc)
  | .ok _, .error _ => .isFalse (by intro hc; cases hc)
  | .ok a1, .ok a2 =>
    if h : a1 = a2 then .isTrue (by rw [h])
    else .isFalse (by intro hc; cases hc; exact h rfl)

/-! ## Claims about the Reference Resolver (C1) -/

/-- C1 counterexample: uid U1 has an identity-mapping entry pointing at
handle "bob", no destination member is named "bob", but a member does
carry the source display name "alice".  The claim predicts the
name-based tier still fires and substitutes that member's mention
"<@!42>"; the source instead falls straight back to the plain-text
token "@alice" (src lines 595-602: the name-based lookup lives only in
the else-branch taken when the uid has no mapping entry). -/
theorem fill_references_tier2_skipped_counterexample :
    fill_references ⟨[⟨"alice", "<@!42>"⟩], []⟩ "hi <@U1>"
        (some [("U1", "alice")]) (some [("U1", "bob")]) none = "hi @alice"
    ∧ get_member_named ⟨[⟨"alice", "<@!42>"⟩], []⟩ "alice" =
        some ⟨"alice", "<@!42>"⟩
    ∧ ("hi @alice" : String) ≠ "hi <@!42>" :=
  ⟨by decide, by decide, by decide⟩

/-- C1 (amended): for a catalog entry (uid, slack_name) whose token
occurs in the text, the resolver substitutes (1) the mapped member's
mention when the identity-mapping handle names an actual destination
member; (2) the plain token "@slack_name" when the uid is mapped but
the mapped handle matches no destination member — the name-based
lookup is NOT attempted in this case; (3) the member's mention found by
source display name when the uid has no mapping entry; (4) the plain
token "@slack_name" when the uid is unmapped and no member carries the
display name. -/
theorem fill_references_precedence (g : Guild) (msg uid slack_name : String)
    (uids : Option (List (String × String)))
    (hocc : pyContains msg ("<@" ++ uid ++ ">") = true)
    (hname : pyEmpty slack_name = false) :
    (∀ d u, uids.bind (fun m => lookupA uid m) = some d →
      get_member_named g d = some u →
      fill_references g msg (some [(uid, slack_name)]) uids none =
        pyReplace msg ("<@" ++ uid ++ ">") u.mention)
    ∧ (∀ d, uids.bind (fun m => lookupA uid m) = some d →
      get_member_named g d = none →
      fill_references g msg (some [(uid, slack_name)]) uids none =
        pyReplace msg ("<@" ++ uid ++ ">") ("@" ++ slack_name))
    ∧ (∀ u, uids.bind (fun m => lookupA uid m) = none →
      get_member_named g slack_name = some u →
      fill_references g msg (some [(uid, slack_name)]) uids none =
        pyReplace msg ("<@" ++ uid ++ ">") u.mention)
    ∧ (uids.bind (fun m => lookupA uid m) = none →
      get_member_named g slack_name = none →
      fill_references g msg (some [(uid, slack_name)]) uids none =
        pyReplace msg ("<@" ++ uid ++ ">") ("@" ++ slack_name)) := by
  refine ⟨?_, ?_, ?_, ?_⟩
  · intro d u hbind hmem
    simp [fill_references, hocc, hname, hbind, hmem]
  · intro d hbind hmem
    simp [fill_references, hocc, hname, hbind, hmem]
  · intro u hbind hmem
    simp [fill_references, hocc, hname, hbind, hmem]
  · intro hbind hmem
    simp [fill_references, hocc, hname, hbind, hmem]

/-- Witness for fill_references_precedence, case (2): uid U2 mapped to
the absent handle "zed" while member "dave" exists; the token becomes
plain text. -/
theorem fill_references_precedence_witness :
    fill_references ⟨[⟨"dave", "<@!7>"⟩], []⟩ "yo <@U2>"
        (some [("U2", "dave")]) (some [("U2", "zed")]) none =
      pyReplace "yo <@U2>" "<@U2>" "@dave" :=
  (fill_references_precedence ⟨[⟨"dave", "<@!7>"⟩], []⟩ "yo <@U2>" "U2" "dave"
      (some [("U2", "zed")]) (by decide) (by decide)).2.1 "zed"
    (by decide) (by decide)

/-! ## Claim about author resolution (C6) -/

/-- C6: with a loaded identity mapping, parse_user resolves a present
user id through the mapping to the destination display handle; a
present but unmapped id becomes the placeholder "<unknown user uid>";
a missing user field becomes the generic placeholder "<unknown user>".
The resulting name is returned as a native mention when a destination
member carries exactly that name, else prefixed with "@". -/
theorem parse_user_resolution (g : Guild) (m : SMsg)
    (users : Option (List (String × String)))
    (mp : List (String × String)) :
    (∀ uid d, m.user = some uid → lookupA uid mp = some d →
      parse_user g m users (some mp) = .ok (wrapMention g d))
    ∧ (∀ uid, m.user = some uid → lookupA uid mp = none →
      parse_user g m users (some mp) =
        .ok (wrapMention g ("<unknown user " ++ uid ++ ">")))
    ∧ (m.user = none →
      parse_user g m users (some mp) = .ok (wrapMention g "<unknown user>")) := by
  refine ⟨?_, ?_, ?_⟩
  · intro uid d hu hl
    simp [parse_user, hu, hl]
  · intro uid hu hl
    simp [parse_user, hu, hl]
  · intro hu
    simp [parse_user, hu]

/-- Witness for parse_user_resolution: an id absent from the mapping
becomes the marked placeholder. -/
theorem parse_user_resolution_witness :
    parse_user ⟨[], []⟩ { user := some "U7" } none (some []) =
      .ok (wrapMention ⟨[], []⟩ "<unknown user U7>") :=
  (parse_user_resolution ⟨[], []⟩ { user := some "U7" } none []).2.1 "U7" rfl rfl

/-! ## Claims about attachment-only messages (C5) -/

/-- A TextEnv whose external services are the identity function; used
for closed evaluations in which no HTML entity, hyperlink markup or
timestamp formatting is involved. -/
def idTextEnv : TextEnv := ⟨id, id, id⟩

/-- The header string appended on attachment-only messages cannot be
empty: it starts with an asterisk. -/
theorem pyFalsy_star_append (s : String) :
    pyFalsy (some ("*" ++ s)) = false := by
  simp [pyFalsy, pyEmpty, String.data_append]

/-- C5 (amended): when a message carries no text and its files resolve
to attachments with no image rich-block, parse_message synthesizes the
header-only text line; when the files produce at least one rich-block
(an image attachment), no header is synthesized and the payload's text
is null. -/
theorem parse_message_attachments_header (env : TextEnv) (g : Guild)
    (users channels : Option (List (String × String)))
    (mp : List (String × String)) (m : SMsg) :
    (∀ u fs fls,
      m.subtype ≠ some "channel_join" → m.subtype ≠ some "bot_message" →
      m.text = none → m.files = some fs →
      parse_user g m users (some mp) = .ok u →
      parse_files fs = (fls, []) → fls ≠ [] →
      parse_message env g m users (some mp) channels =
        .ok (some ⟨m.client_msg_id,
          some ("*" ++ parse_timestamp env m ++ "* **" ++ u
            ++ "**: *Attachments:*"), fls, [], m.thread_ts⟩))
    ∧ (∀ u fs fls es,
      m.subtype ≠ some "channel_join" → m.subtype ≠ some "bot_message" →
      m.text = none → m.files = some fs →
      parse_user g m users (some mp) = .ok u →
      parse_files fs = (fls, es) → es ≠ [] →
      parse_message env g m users (some mp) channels =
        .ok (some ⟨m.client_msg_id, none, fls, es, m.thread_ts⟩)) := by
  constructor
  · intro u fs fls hj hb htext hfiles hu hpf hne
    have hfe : fls.isEmpty = false := by
      cases fls with
      | nil => exact absurd rfl hne
      | cons a l => rfl
    simp only [parse_message, if_neg hj, if_neg hb, hu, htext, hfiles, hpf,
      Option.isSome_none, Bool.false_eq_true, if_false, hfe,
      pyFalsy, List.isEmpty_nil, Bool.not_false, Bool.and_true, Bool.and_self]
    simp [pyFalsy_star_append]
  · intro u fs fls es hj hb htext hfiles hu hpf hne
    have hee : es.isEmpty = false := by
      cases es with
      | nil => exact absurd rfl hne
      | cons a l => rfl
    simp only [parse_message, if_neg hj, if_neg hb, hu, htext, hfiles, hpf,
      Option.isSome_none, Bool.false_eq_true, if_false, hee,
      pyFalsy, List.isEmpty_nil, Bool.and_false, Bool.false_and, Bool.and_self]

/-- Witness for parse_message_attachments_header, first part: a
message whose only content is a single non-image file attachment gets
the synthesized header line. -/
theorem parse_message_attachments_header_witness :
    parse_message idTextEnv ⟨[], []⟩
        { client_msg_id := some "m2", user := some "U9",
          files := some [⟨some "https://files/notes.txt", "txt",
            "notes.txt", "notes", "text/plain", 6⟩] }
        none (some []) none =
      .ok (some ⟨some "m2",
        some "*<no timestamp>* **@<unknown user U9>**: *Attachments:*",
        [⟨"notes.txt"⟩], [], none⟩) := by
  rw [(parse_message_attachments_header idTextEnv ⟨[], []⟩ none none []
      { client_msg_id := some "m2", user := some "U9",
        files := some [⟨some "https://files/notes.txt", "txt",
          "notes.txt", "notes", "text/plain", 6⟩] }).1
    "@<unknown user U9>"
    [⟨some "https://files/notes.txt", "txt", "notes.txt", "notes",
      "text/plain", 6⟩]
    [⟨"notes.txt"⟩]
    (by decide) (by decide) rfl rfl (by decide) (by decide) (by decide)]
  decide

/-- C5 counterexample: a message whose only content is two file
attachments, one image-typed and one not.  The image file contributes a
rich-block, so the header branch (src line 936: `if files and not msg
and not embeds`) does not fire: the payload carries one image
rich-block, two attachments, and null text — not the synthesized
"*Attachments:*" header the claim promises for this case. -/
theorem parse_message_image_attachment_no_header_counterexample :
    parse_message idTextEnv ⟨[], []⟩
        { client_msg_id := some "m1", user := some "U9", ts := some "123",
          files := some
            [⟨some "https://files/pic.png", "png", "pic.png", "pic",
              "image/png", 5⟩,
             ⟨some "https://files/notes.txt", "txt", "notes.txt", "notes",
              "text/plain", 6⟩] }
        none (some []) none =
      .ok (some ⟨some "m1", none, [⟨"pic.png"⟩, ⟨"notes.txt"⟩],
        [{ etype := "image", title := some "pic", timestamp := some 5,
           image_url := some "attachment://pic.png" }], none⟩) := by
  decide

/-! ## Thread sequencing and per-channel state (C2, C9, and helpers) -/


theorem pyEmpty_append_false (t s : String) (h : pyEmpty t = false) :
    pyEmpty (t ++ s) = false := by
  simp only [pyEmpty, String.data_append]
  cases ht : t.data with
  | nil =>
    unfold pyEmpty at h
    rw [ht] at h
    simp at h
  | cons c rest => rfl

theorem send_message_content (n : Nat) (c : DestCtx) (msg : Option String)
    (ref : Option Nat) (embeds : List DEmbed) (files : List DFile)
    (h : (pyFalsy msg && embeds.isEmpty && files.isEmpty) = false) :
    send_message n c msg ref embeds files =
      (some n, [⟨c, msg, if embeds.isEmpty && files.isEmpty then ref else none,
        embeds, files, n⟩]) := by
  simp only [send_message, h, Bool.false_eq_true, if_false]
  by_cases h2 : (embeds.isEmpty && files.isEmpty) = true
  · rw [Bool.and_eq_true, List.isEmpty_iff, List.isEmpty_iff] at h2
    obtain ⟨he, hf⟩ := h2
    subst he
    subst hf
    simp
  · simp only [Bool.not_eq_true] at h2
    simp [h2]

theorem import_step_of_crashed (native : Bool) (st : ImpState) (p : PMsg)
    (h : st.crashed = true) : import_step native st p = st := by
  simp [import_step, h]

theorem import_run_cons (native : Bool) (st : ImpState) (p : PMsg)
    (rest : List PMsg) :
    import_run native st (p :: rest) =
      import_run native (import_step native st p) rest := rfl

theorem import_step_threads_other (native : Bool) (st : ImpState) (p : PMsg)
    (T : String) (hT : p.thread_ts ≠ some T) :
    lookupA T (import_step native st p).threads = lookupA T st.threads := by
  unfold import_step
  by_cases hcr : st.crashed = true
  · rw [if_pos hcr]
  · rw [if_neg hcr]
    by_cases hc : (!hasContent p) = true
    · rw [if_pos hc]
    · rw [if_neg hc]
      cases hprep : prepMsg native st p with
      | none => rfl
      | some ctm =>
        obtain ⟨context, thread_owner, msg⟩ := ctm
        simp only
        cases hts : p.thread_ts with
        | none => rfl
        | some ts =>
          simp only
          cases hl : lookupA ts st.threads with
          | some anchor => simp only [hl]
          | none =>
            simp only [hl]
            have hne : ¬(T = ts) := fun hEq => hT (by rw [hts, hEq])
            unfold recordThread
            by_cases hn : native = true
            · rw [if_pos hn]
              cases (send_message st.nextHandle context msg thread_owner
                  p.embeds p.files).1 with
              | some h2 => simp [lookupA_updateA, hne]
              | none => rfl
            · rw [if_neg hn]
              simp [lookupA_updateA, hne]

theorem import_step_threads_hit (native : Bool) (st : ImpState) (p : PMsg)
    (ts : String) (v : Option Nat)
    (hts : p.thread_ts = some ts) (hl : lookupA ts st.threads = some v) :
    (import_step native st p).threads = st.threads := by
  unfold import_step
  by_cases hcr : st.crashed = true
  · rw [if_pos hcr]
  · rw [if_neg hcr]
    by_cases hc : (!hasContent p) = true
    · rw [if_pos hc]
    · rw [if_neg hc]
      cases hprep : prepMsg native st p with
      | none => rfl
      | some ctm =>
        obtain ⟨context, thread_owner, msg⟩ := ctm
        simp only [hts, hl]

theorem import_step_threads_mono (native : Bool) (st : ImpState) (p : PMsg)
    (T : String) (v : Option Nat) (h : lookupA T st.threads = some v) :
    lookupA T (import_step native st p).threads = some v := by
  by_cases hts : p.thread_ts = some T
  · rw [import_step_threads_hit native st p T v hts h]
    exact h
  · rw [import_step_threads_other native st p T hts]
    exact h

theorem import_run_threads_mono (native : Bool) (ps : List PMsg)
    (st : ImpState) (T : String) (v : Option Nat)
    (h : lookupA T st.threads = some v) :
    lookupA T (import_run native st ps).threads = some v := by
  induction ps generalizing st with
  | nil => exact h
  | cons p rest ih =>
    rw [import_run_cons]
    exact ih _ (import_step_threads_mono native st p T v h)

theorem import_run_threads_none (native : Bool) (ps : List PMsg)
    (st : ImpState) (T : String)
    (h : lookupA T st.threads = none) (hall : ∀ p ∈ ps, p.thread_ts ≠ some T) :
    lookupA T (import_run native st ps).threads = none := by
  induction ps generalizing st with
  | nil => exact h
  | cons p rest ih =>
    rw [import_run_cons]
    refine ih _ ?_ (fun q hq => hall q (List.mem_cons_of_mem p hq))
    rw [import_step_threads_other native st p T (hall p (List.mem_cons_self p rest))]
    exact h

theorem import_run_crashed_mono (native : Bool) (ps : List PMsg)
    (st : ImpState) (h : st.crashed = true) :
    (import_run native st ps).crashed = true := by
  induction ps generalizing st with
  | nil => exact h
  | cons p rest ih =>
    rw [import_run_cons, import_step_of_crashed native st p h]
    exact ih _ h

theorem import_run_crashed_back (native : Bool) (ps : List PMsg)
    (st : ImpState) (h : (import_run native st ps).crashed = false) :
    st.crashed = false := by
  by_contra hc
  simp only [Bool.not_eq_false] at hc
  rw [import_run_crashed_mono native ps st hc] at h
  cases h

theorem hasContent_false_eq (p : PMsg) (hc : hasContent p = true) :
    (pyFalsy p.msg && p.embeds.isEmpty && p.files.isEmpty) = false := by
  unfold hasContent at hc
  cases h : (pyFalsy p.msg && p.embeds.isEmpty && p.files.isEmpty) with
  | false => rfl
  | true => rw [h] at hc; cases hc

theorem import_step_opener (native : Bool) (st : ImpState) (p : PMsg)
    (T : String)
    (hcr : st.crashed = false) (hc : hasContent p = true)
    (ht : p.thread_ts = some T) (hmiss : lookupA T st.threads = none)
    (hmsg : native = false → p.msg.isSome) :
    (import_step native st p).crashed = false
    ∧ lookupA T (import_step native st p).threads = some (some st.nextHandle)
    ∧ (import_step native st p).nextHandle = st.nextHandle + 1
    ∧ (∃ mt, (import_step native st p).deliveries =
        st.deliveries ++
          [⟨DestCtx.channel, mt, none, p.embeds, p.files, st.nextHandle⟩]) := by
  have hcontent := hasContent_false_eq p hc
  cases hn : native with
  | true =>
    have hprep : prepMsg true st p = some (.channel, none, p.msg) := by
      unfold prepMsg
      rw [ht]
      simp only [hmiss, if_true]
    have hsend := send_message_content st.nextHandle .channel p.msg none
      p.embeds p.files hcontent
    simp only [import_step, hcr, Bool.false_eq_true, if_false, hc,
      Bool.not_true, hprep, hsend, ht, hmiss, recordThread, if_true]
    refine ⟨by simp [hcr], ?_, by simp, ⟨p.msg, by simp⟩⟩
    simp [lookupA_updateA]
  | false =>
    obtain ⟨s, hs⟩ := Option.isSome_iff_exists.mp (hmsg hn)
    have hpfx : pyFalsy (some ("[Thread OP] " ++ s)) = false := by
      simp only [pyFalsy]
      exact pyEmpty_append_false _ _ (by rfl)
    have hprep : prepMsg false st p =
        some (.channel, none, some ("[Thread OP] " ++ s)) := by
      unfold prepMsg
      rw [ht]
      simp only [hmiss, hs, Bool.false_eq_true, if_false]
    have hsend := send_message_content st.nextHandle .channel
      (some ("[Thread OP] " ++ s)) none p.embeds p.files
      (by rw [hpfx]; simp)
    simp only [import_step, hcr, Bool.false_eq_true, if_false, hc,
      Bool.not_true, hprep, hsend, ht, hmiss, recordThread]
    refine ⟨by simp [hcr], ?_, by simp, ⟨some ("[Thread OP] " ++ s), by simp⟩⟩
    simp [lookupA_updateA]

theorem import_step_reply (native : Bool) (st : ImpState) (p : PMsg)
    (T : String) (a : Nat)
    (hcr : st.crashed = false) (hc : hasContent p = true)
    (ht : p.thread_ts = some T) (hhit : lookupA T st.threads = some (some a))
    (hmsg : native = false → p.msg.isSome) :
    (import_step native st p).threads = st.threads
    ∧ ∃ d : Delivery, (import_step native st p).deliveries = st.deliveries ++ [d]
      ∧ d.handle = st.nextHandle ∧ d.embeds = p.embeds ∧ d.files = p.files
      ∧ (native = true → d.context = DestCtx.thread a ∧ d.ref = none
          ∧ d.msg = p.msg)
      ∧ (native = false → d.context = DestCtx.channel
          ∧ (∃ s, p.msg = some s ∧ d.msg = some ("[Thread] " ++ s))
          ∧ d.ref =
            (if p.embeds.isEmpty && p.files.isEmpty then some a else none)) := by
  have hcontent := hasContent_false_eq p hc
  cases hn : native with
  | true =>
    have hprep : prepMsg true st p = some (.thread a, none, p.msg) := by
      unfold prepMsg
      rw [ht]
      simp only [hhit, if_true]
    have hsend := send_message_content st.nextHandle (.thread a) p.msg none
      p.embeds p.files hcontent
    simp only [import_step, hcr, Bool.false_eq_true, if_false, hc,
      Bool.not_true, hprep, hsend, ht, hhit]
    refine ⟨by simp, ?_⟩
    refine ⟨⟨DestCtx.thread a, p.msg, none, p.embeds, p.files, st.nextHandle⟩,
      by simp, rfl, rfl, rfl, ?_, ?_⟩
    · intro _
      exact ⟨rfl, rfl, rfl⟩
    · intro h2
      exact absurd h2 (by decide)
  | false =>
    obtain ⟨s, hs⟩ := Option.isSome_iff_exists.mp (hmsg hn)
    have hpfx : pyFalsy (some ("[Thread] " ++ s)) = false := by
      simp only [pyFalsy]
      exact pyEmpty_append_false _ _ (by rfl)
    have hprep : prepMsg false st p =
        some (.channel, some a, some ("[Thread] " ++ s)) := by
      unfold prepMsg
      rw [ht]
      simp only [hhit, hs, Bool.false_eq_true, if_false]
    have hsend := send_message_content st.nextHandle .channel
      (some ("[Thread] " ++ s)) (some a) p.embeds p.files
      (by rw [hpfx]; simp)
    simp only [import_step, hcr, Bool.false_eq_true, if_false, hc,
      Bool.not_true, hprep, hsend, ht, hhit]
    refine ⟨by simp, ?_⟩
    refine ⟨⟨DestCtx.channel, some ("[Thread] " ++ s),
      if p.embeds.isEmpty && p.files.isEmpty then some a else none,
      p.embeds, p.files, st.nextHandle⟩, by simp, rfl, rfl, rfl, ?_, ?_⟩
    · intro h2
      exact h2.elim
    · intro _
      exact ⟨rfl, ⟨s, hs, rfl⟩, rfl⟩

/-- C2 (amended): for any channel import, mode, and prefix l1 free of
thread key T, when m1 (first message bearing T, with content) is
processed it is delivered to the parent channel context (with no reply
reference) and its delivery handle is recorded as T's anchor before any
later message is processed; the anchor is still recorded after any
further messages l2; and the reply m2 bearing T is then delivered into
T's recorded destination context: in native mode the thread created
from the anchor; in emulation mode (which requires the reply to carry
text) the channel, its text prefixed with the thread tag, referencing
the anchor exactly when the payload has no embeds and no attachments —
with embeds or attachments the send omits the anchor reference. -/
theorem import_thread_sequencing (native : Bool) (st0 : ImpState)
    (l1 l2 : List PMsg) (m1 m2 : PMsg) (T : String)
    (hstart : lookupA T st0.threads = none)
    (h1 : m1.thread_ts = some T) (h2 : m2.thread_ts = some T)
    (hc1 : hasContent m1 = true) (hc2 : hasContent m2 = true)
    (hm1 : native = false → m1.msg.isSome) (hm2 : native = false → m2.msg.isSome)
    (hl1 : ∀ p ∈ l1, p.thread_ts ≠ some T)
    (hB : (import_step native (import_run native st0 l1) m1).crashed = false)
    (hC : (import_run native (import_step native (import_run native st0 l1) m1) l2).crashed = false) :
    (∃ mt, (import_step native (import_run native st0 l1) m1).deliveries =
        (import_run native st0 l1).deliveries ++
          [⟨DestCtx.channel, mt, none, m1.embeds, m1.files,
            (import_run native st0 l1).nextHandle⟩])
    ∧ lookupA T (import_step native (import_run native st0 l1) m1).threads =
        some (some (import_run native st0 l1).nextHandle)
    ∧ lookupA T (import_run native
        (import_step native (import_run native st0 l1) m1) l2).threads =
        some (some (import_run native st0 l1).nextHandle)
    ∧ ∃ d : Delivery,
        (import_step native (import_run native
            (import_step native (import_run native st0 l1) m1) l2) m2).deliveries =
          (import_run native
            (import_step native (import_run native st0 l1) m1) l2).deliveries ++ [d]
        ∧ d.handle = (import_run native
            (import_step native (import_run native st0 l1) m1) l2).nextHandle
        ∧ d.embeds = m2.embeds ∧ d.files = m2.files
        ∧ (native = true →
            d.context = DestCtx.thread (import_run native st0 l1).nextHandle
            ∧ d.ref = none ∧ d.msg = m2.msg)
        ∧ (native = false → d.context = DestCtx.channel
            ∧ (∃ s, m2.msg = some s ∧ d.msg = some ("[Thread] " ++ s))
            ∧ d.ref = (if m2.embeds.isEmpty && m2.files.isEmpty
                then some (import_run native st0 l1).nextHandle else none)) := by
  have hcrA : (import_run native st0 l1).crashed = false := by
    by_contra hx
    simp only [Bool.not_eq_false] at hx
    rw [import_step_of_crashed native _ m1 hx] at hB
    rw [hx] at hB
    cases hB
  have hmissA : lookupA T (import_run native st0 l1).threads = none :=
    import_run_threads_none native l1 st0 T hstart hl1
  obtain ⟨hBcr, hBlook, hBnext, hBdel⟩ :=
    import_step_opener native (import_run native st0 l1) m1 T hcrA hc1 h1 hmissA hm1
  have hClook : lookupA T (import_run native
      (import_step native (import_run native st0 l1) m1) l2).threads =
      some (some (import_run native st0 l1).nextHandle) :=
    import_run_threads_mono native l2 _ T _ hBlook
  obtain ⟨-, hdel⟩ :=
    import_step_reply native _ m2 T (import_run native st0 l1).nextHandle
      hC hc2 h2 hClook hm2
  exact ⟨hBdel, hBlook, hClook, hdel⟩

def m1W : PMsg := ⟨some "1", some "a", [], [], some "T"⟩
def m2W : PMsg := ⟨some "2", some "b", [], [], some "T"⟩

/-- Witness for import_thread_sequencing: a two-message thread in
native mode records the first send (handle 0) as the anchor of "T". -/
theorem import_thread_sequencing_witness :
    lookupA "T" (import_step true (import_run true initImpState []) m1W).threads
      = some (some 0) :=
  (import_thread_sequencing true initImpState [] [] m1W m2W "T" rfl rfl rfl
    (by decide) (by decide) (fun h => absurd h (by decide))
    (fun h => absurd h (by decide))
    (by intro p hp; exact absurd hp (List.not_mem_nil p))
    (by decide) (by decide)).2.1

def m2F : PMsg := ⟨some "2", some "b", [⟨"x.txt"⟩], [], some "T"⟩

/-- C2 counterexample: in emulation mode (discord.py < 2) a reply that
carries a file attachment is delivered to the channel WITHOUT the
anchor reference, although the anchor (handle 0) is recorded: the
send path for payloads with embeds or files (src lines 990/992) does
not pass `reference=`.  The claim as stated promises every reply in
emulation mode references the anchor message. -/
theorem import_reply_reference_dropped_counterexample :
    (import_run false initImpState [m1W, m2F]).deliveries =
      [⟨DestCtx.channel, some "[Thread OP] a", none, [], [], 0⟩,
       ⟨DestCtx.channel, some "[Thread] b", none, [], [⟨"x.txt"⟩], 1⟩]
    ∧ lookupA "T" (import_run false initImpState [m1W, m2F]).threads =
        some (some 0) :=
  ⟨by decide, by decide⟩

theorem import_step_receipts_keys (native : Bool) (st : ImpState) (p : PMsg)
    (k : Option String) (h : (lookupA k st.receipts).isSome = true) :
    (lookupA k (import_step native st p).receipts).isSome = true := by
  unfold import_step
  by_cases hcr : st.crashed = true
  · rw [if_pos hcr]
    exact h
  · rw [if_neg hcr]
    by_cases hc : (!hasContent p) = true
    · rw [if_pos hc]
      exact h
    · rw [if_neg hc]
      cases hprep : prepMsg native st p with
      | none => exact h
      | some ctm =>
        obtain ⟨context, thread_owner, msg⟩ := ctm
        simp only
        have hupd : (lookupA k (updateA p.msg_id
            (send_message st.nextHandle context msg thread_owner p.embeds p.files).1
            st.receipts)).isSome = true := by
          rw [lookupA_updateA]
          by_cases hk : k = p.msg_id
          · simp [hk]
          · simp only [if_neg hk]
            exact h
        cases hts : p.thread_ts with
        | none => exact hupd
        | some ts =>
          simp only
          cases hl : lookupA ts st.threads with
          | some anchor =>
            simp only [hl]
            exact hupd
          | none =>
            simp only [hl]
            unfold recordThread
            by_cases hn : native = true
            · rw [if_pos hn]
              cases hres : (send_message st.nextHandle context msg thread_owner
                  p.embeds p.files).1 with
              | some h2 =>
                rw [hres] at hupd
                exact hupd
              | none =>
                rw [hres] at hupd
                exact hupd
            · rw [if_neg hn]
              exact hupd

theorem import_run_receipts_keys (native : Bool) (ps : List PMsg)
    (st : ImpState) (k : Option String)
    (h : (lookupA k st.receipts).isSome = true) :
    (lookupA k (import_run native st ps).receipts).isSome = true := by
  induction ps generalizing st with
  | nil => exact h
  | cons p rest ih =>
    rw [import_run_cons]
    exact ih _ (import_step_receipts_keys native st p k h)

/-- C9 (amended): the ThreadState mapping does start empty at each
channel import (`threads = {}` inside import_files) — the import of a
channel is independent of any previously accumulated thread state; the
DeliveryReceipt mapping however is the shared mutable default argument
`messages={}` of import_files, which import_slack_directory never
overrides, so its entries persist across channel imports (and across
invocations within one process): any key present on entry is still
present after the channel completes. -/
theorem thread_state_reset_receipts_persist (native : Bool) (st : ImpState)
    (ch : List PMsg) (t : List (String × Option Nat)) (k : Option String)
    (hk : (lookupA k st.receipts).isSome = true) :
    import_channel native { st with threads := t } ch = import_channel native st ch
    ∧ (lookupA k (import_channel native st ch).receipts).isSome = true :=
  ⟨rfl, import_run_receipts_keys native ch _ k hk⟩

/-- Witness for thread_state_reset_receipts_persist. -/
theorem thread_state_reset_receipts_persist_witness :
    (lookupA (some "a") (import_channel true
      { initImpState with receipts := [(some "a", some 0)] } []).receipts).isSome
      = true :=
  (thread_state_reset_receipts_persist true
    { initImpState with receipts := [(some "a", some 0)] } [] [] (some "a")
    (by decide)).2

def mA9 : PMsg := ⟨some "a", some "hello", [], [], none⟩
def mB9 : PMsg := ⟨some "b", some "world", [], [], none⟩

/-- C9 counterexample: after importing a first channel containing one
message with id "a", the receipts dict with which the second channel's
import_files call begins (the shared mutable default argument, threaded
through by import_slack_directory) already holds the entry from
channel 1: it does not start empty, contradicting the claim that no
entries carry over from a previous channel. -/
theorem receipts_carry_over_counterexample :
    import_channels true initImpState [[mA9], [mB9]] =
      import_channel true (import_channel true initImpState [mA9]) [mB9]
    ∧ (import_channel true initImpState [mA9]).receipts = [(some "a", some 0)] :=
  ⟨rfl, by decide⟩
